import Mathlib

/-!
Shallow embedding of the preemptive SRTF (Shortest Remaining Time First)
scheduler in `Geurkink_Chinn_L4P1.ino`.

The program consists of three FreeRTOS worker tasks — an LED blinker
(`ledTask`, task 1), an LCD counter (`counterTask`, task 2) and a serial
alphabet printer (`alphabetTask`, task 3) — plus a higher-priority
scheduler task (`scheduleTasks`).  Each worker, when resumed, executes
exactly one bounded work slice: it advances its internal cadence
counter, possibly performs its externally visible effect, decrements its
remaining execution time by the work-slice length (floored at 0), records
its next wake tick via `myTaskDelay` and self-suspends; once its
remaining time is 0 it instead marks itself complete (with a one-time
completion side effect) and self-suspends.  The scheduler, once per
iteration, resets everything when all three completion flags are set,
selects the incomplete, awake task with the smallest remaining time
(evaluating the tasks in registration order led, counter, alphabet),
force-suspends the incomplete tasks that were not selected, and resumes
the selected one.

Ticks are modelled as natural numbers of milliseconds (`pdMS_TO_TICKS`
is the identity at a 1 ms tick).  One scheduler iteration together with
the single slice of the dispatched task is modelled as the pure state
transformer `scheduleTasksStep`, taking the current tick as input.
Serial/LCD/GPIO effects are modelled by the state fields that drive
them (`ledPin`, `count`, `currLetter`) and by the cycle-notice counter
`cycleNotices`; FreeRTOS suspend/resume is modelled by the per-task
running flags.
-/

/-- Small time slice (10 ms) used by all tasks. -/
def workSliceDelay : Nat := 10

/-- FreeRTOS `portMAX_DELAY` for a 32-bit `TickType_t`. -/
def portMAX_DELAY : Nat := 4294967295

/-- The per-cycle execution budgets (`ledTaskExecutionTime`,
`counterTaskExecutionTime`, `alphabetTaskExecutionTime`); kept abstract
so that scenario claims with other quotas can be stated as well. -/
structure Config where
  ledTaskExecutionTime : Nat
  counterTaskExecutionTime : Nat
  alphabetTaskExecutionTime : Nat
deriving DecidableEq, Repr

/-- The budgets hard-coded in the source: 500 ms, 2000 ms, 13000 ms. -/
def realConfig : Config :=
  { ledTaskExecutionTime := 500
    counterTaskExecutionTime := 2000
    alphabetTaskExecutionTime := 13000 }

/-- The three worker tasks, in registration order (`taskNum` 1, 2, 3). -/
inductive TaskId
  | led
  | counter
  | alphabet
deriving DecidableEq, Repr

/-- The mutable program state: the shared globals
(`remaining*Time`, `*WakeTime`, `*Complete`), each task's local
variables (`ticksElapsed`, the counter task's `count`, the alphabet
task's `currLetter`), the modelled hardware state (`ledPin`), the
FreeRTOS suspended/running status of each worker, and a counter of
cycle-completion notices printed by the scheduler. -/
structure TaskState where
  remainingLedTime : Nat
  remainingCounterTime : Nat
  remainingAlphabetTime : Nat
  ledWakeTime : Nat
  counterWakeTime : Nat
  alphabetWakeTime : Nat
  ledComplete : Bool
  counterComplete : Bool
  alphabetComplete : Bool
  ledTicksElapsed : Nat
  counterTicksElapsed : Nat
  alphabetTicksElapsed : Nat
  count : Nat
  currLetter : Nat
  ledPin : Bool
  ledRunning : Bool
  counterRunning : Bool
  alphabetRunning : Bool
  cycleNotices : Nat
deriving DecidableEq, Repr

/-- `myTaskDelay`: the wake time recorded for the calling task is the
current tick count plus the requested delay. -/
def myTaskDelay (delayTicks now : Nat) : Nat := now + delayTicks

/-- One pass of `ledTask`'s loop body, from being resumed to the next
self-suspension, executing at tick `now`.  In the work branch the task
accumulates `ticksElapsed`, toggles the LED twice (a blink) when the
50 ms cadence boundary is crossed, decrements `remainingLedTime` with a
floor at 0, and records its wake time via `myTaskDelay`.  In the
completion branch it zeroes its wake time, sets `ledComplete` and
forces the LED low. -/
def ledTaskSlice (now : Nat) (s : TaskState) : TaskState :=
  if s.remainingLedTime > 0 then
    let ticksElapsed := s.ledTicksElapsed + workSliceDelay
    let s :=
      if ticksElapsed ≥ 50 then
        { s with ledPin := !(!s.ledPin), ledTicksElapsed := 0 }
      else
        { s with ledTicksElapsed := ticksElapsed }
    let s :=
      if s.remainingLedTime > workSliceDelay then
        { s with remainingLedTime := s.remainingLedTime - workSliceDelay }
      else
        { s with remainingLedTime := 0 }
    { s with ledWakeTime := myTaskDelay workSliceDelay now, ledRunning := false }
  else
    { s with ledWakeTime := 0, ledComplete := true, ledPin := false, ledRunning := false }

/-- One pass of `counterTask`'s loop body.  Every 100 ms of accumulated
slices it writes `count` to the LCD and increments it (only while
`count ≤ 20`); on completion it resets `count` to 1, redraws the fixed
text and sets `counterComplete`. -/
def counterTaskSlice (now : Nat) (s : TaskState) : TaskState :=
  if s.remainingCounterTime > 0 then
    let ticksElapsed := s.counterTicksElapsed + workSliceDelay
    let s :=
      if ticksElapsed ≥ 100 then
        if s.count ≤ 20 then
          { s with count := s.count + 1, counterTicksElapsed := 0 }
        else
          { s with counterTicksElapsed := 0 }
      else
        { s with counterTicksElapsed := ticksElapsed }
    let s :=
      if s.remainingCounterTime > workSliceDelay then
        { s with remainingCounterTime := s.remainingCounterTime - workSliceDelay }
      else
        { s with remainingCounterTime := 0 }
    { s with counterWakeTime := myTaskDelay workSliceDelay now, counterRunning := false }
  else
    { s with counterWakeTime := 0, count := 1, counterComplete := true,
             counterRunning := false }

/-- One pass of `alphabetTask`'s loop body.  Every 500 ms of accumulated
slices it prints `currLetter` and advances it, clamped at character
code 90 (code for Z); on completion it resets `currLetter` to 65 (code
for A) and sets `alphabetComplete`. -/
def alphabetTaskSlice (now : Nat) (s : TaskState) : TaskState :=
  if s.remainingAlphabetTime > 0 then
    let ticksElapsed := s.alphabetTicksElapsed + workSliceDelay
    let s :=
      if ticksElapsed ≥ 500 then
        let nextLetter := s.currLetter + 1
        { s with currLetter := if nextLetter > 90 then 90 else nextLetter,
                 alphabetTicksElapsed := 0 }
      else
        { s with alphabetTicksElapsed := ticksElapsed }
    let s :=
      if s.remainingAlphabetTime > workSliceDelay then
        { s with remainingAlphabetTime := s.remainingAlphabetTime - workSliceDelay }
      else
        { s with remainingAlphabetTime := 0 }
    { s with alphabetWakeTime := myTaskDelay workSliceDelay now, alphabetRunning := false }
  else
    { s with alphabetWakeTime := 0, currLetter := 65, alphabetComplete := true,
             alphabetRunning := false }

/-- The scheduler's cycle-reset check (the first block of
`scheduleTasks`'s loop): when all three completion flags are set, it
prints the cycle-completion notice and resets the completion flags, the
wake times and the remaining times. -/
def cycleResetCheck (cfg : Config) (s : TaskState) : TaskState :=
  if s.ledComplete = true ∧ s.counterComplete = true ∧ s.alphabetComplete = true then
    { s with cycleNotices := s.cycleNotices + 1,
             ledComplete := false, counterComplete := false, alphabetComplete := false,
             ledWakeTime := 0, counterWakeTime := 0, alphabetWakeTime := 0,
             remainingLedTime := cfg.ledTaskExecutionTime,
             remainingCounterTime := cfg.counterTaskExecutionTime,
             remainingAlphabetTime := cfg.alphabetTaskExecutionTime }
  else s

/-- Evaluation of the led task (task 1) in candidate selection: it
becomes the candidate when it is incomplete, its remaining time is
strictly below the running minimum, and it is awake. -/
def evalLedTask (currentTime : Nat) (s : TaskState) (minTime : Nat)
    (nextTask : Option TaskId) : Nat × Option TaskId :=
  if s.ledComplete = false ∧ s.remainingLedTime < minTime ∧
      currentTime ≥ s.ledWakeTime then
    (s.remainingLedTime, some TaskId.led)
  else
    (minTime, nextTask)

/-- Evaluation of the counter task (task 2) in candidate selection:
the source uses a non-strict comparison here. -/
def evalCounterTask (currentTime : Nat) (s : TaskState) (minTime : Nat)
    (nextTask : Option TaskId) : Nat × Option TaskId :=
  if s.counterComplete = false ∧ s.remainingCounterTime ≤ minTime ∧
      currentTime ≥ s.counterWakeTime then
    (s.remainingCounterTime, some TaskId.counter)
  else
    (minTime, nextTask)

/-- Evaluation of the alphabet task (task 3) in candidate selection:
the source uses a non-strict comparison here. -/
def evalAlphabetTask (currentTime : Nat) (s : TaskState) (minTime : Nat)
    (nextTask : Option TaskId) : Nat × Option TaskId :=
  if s.alphabetComplete = false ∧ s.remainingAlphabetTime ≤ minTime ∧
      currentTime ≥ s.alphabetWakeTime then
    (s.remainingAlphabetTime, some TaskId.alphabet)
  else
    (minTime, nextTask)

/-- Candidate selection: starting from `minTime = portMAX_DELAY` and
`nextTask = NULL`, evaluate the three tasks in registration order. -/
def selectNext (currentTime : Nat) (s : TaskState) : Option TaskId :=
  let r1 := evalLedTask currentTime s portMAX_DELAY none
  let r2 := evalCounterTask currentTime s r1.1 r1.2
  let r3 := evalAlphabetTask currentTime s r2.1 r2.2
  r3.2

/-- Preemption enforcement: each worker that was not selected and is
not complete is explicitly suspended (`vTaskSuspend`). -/
def suspendNonSelected (nextTask : Option TaskId) (s : TaskState) : TaskState :=
  let s :=
    if nextTask ≠ some TaskId.led ∧ s.ledComplete = false then
      { s with ledRunning := false }
    else s
  let s :=
    if nextTask ≠ some TaskId.counter ∧ s.counterComplete = false then
      { s with counterRunning := false }
    else s
  let s :=
    if nextTask ≠ some TaskId.alphabet ∧ s.alphabetComplete = false then
      { s with alphabetRunning := false }
    else s
  s

/-- `vTaskResume` on the selected worker: it becomes running. -/
def resumeTask : TaskId → TaskState → TaskState
  | TaskId.led, s => { s with ledRunning := true }
  | TaskId.counter, s => { s with counterRunning := true }
  | TaskId.alphabet, s => { s with alphabetRunning := true }

/-- Running one pass of the given worker's loop body. -/
def runTask (t : TaskId) (now : Nat) (s : TaskState) : TaskState :=
  match t with
  | TaskId.led => ledTaskSlice now s
  | TaskId.counter => counterTaskSlice now s
  | TaskId.alphabet => alphabetTaskSlice now s

/-- The state right after the scheduler's preemption enforcement and
resume of the candidate, before the dispatched slice body executes:
this is the instant at which the mutual-exclusion invariant is
asserted. -/
def afterPreemption (cfg : Config) (now : Nat) (s : TaskState) : TaskState :=
  let s1 := cycleResetCheck cfg s
  let nextTask := selectNext now s1
  let s2 := suspendNonSelected nextTask s1
  match nextTask with
  | some t => resumeTask t s2
  | none => s2

/-- One full iteration of `scheduleTasks`'s loop at tick `now`,
together with the single slice the dispatched worker then executes:
cycle-reset check, candidate selection, preemption enforcement, and
dispatch (resume followed by the worker's one bounded slice).  When no
candidate exists the iteration only idles. -/
def scheduleTasksStep (cfg : Config) (now : Nat) (s : TaskState) : TaskState :=
  let s1 := cycleResetCheck cfg s
  let nextTask := selectNext now s1
  let s2 := suspendNonSelected nextTask s1
  match nextTask with
  | some t => runTask t now (resumeTask t s2)
  | none => s2

/-- The startup state built by `setup`: all budgets full, all wake
times 0, nothing complete, all workers suspended immediately after
creation, LED pin low, counter text showing from 1, letter A. -/
def initialState (cfg : Config) : TaskState :=
  { remainingLedTime := cfg.ledTaskExecutionTime
    remainingCounterTime := cfg.counterTaskExecutionTime
    remainingAlphabetTime := cfg.alphabetTaskExecutionTime
    ledWakeTime := 0
    counterWakeTime := 0
    alphabetWakeTime := 0
    ledComplete := false
    counterComplete := false
    alphabetComplete := false
    ledTicksElapsed := 0
    counterTicksElapsed := 0
    alphabetTicksElapsed := 0
    count := 1
    currLetter := 65
    ledPin := false
    ledRunning := false
    counterRunning := false
    alphabetRunning := false
    cycleNotices := 0 }

/-- The spec's stated relation between the completion flag and the
remaining quota, as worded: the flag holds exactly when the remaining
time is zero (to be compared against the code's behavior). -/
def completeMatchesZero (s : TaskState) : Prop :=
  ((s.ledComplete = true) ↔ s.remainingLedTime = 0) ∧
  ((s.counterComplete = true) ↔ s.remainingCounterTime = 0) ∧
  ((s.alphabetComplete = true) ↔ s.remainingAlphabetTime = 0)

instance (s : TaskState) : Decidable (completeMatchesZero s) := by
  unfold completeMatchesZero; infer_instance

/-- The direction of that relation the code actually maintains: a set
completion flag guarantees the remaining time is zero. -/
def completeImpliesZero (s : TaskState) : Prop :=
  (s.ledComplete = true → s.remainingLedTime = 0) ∧
  (s.counterComplete = true → s.remainingCounterTime = 0) ∧
  (s.alphabetComplete = true → s.remainingAlphabetTime = 0)

instance (s : TaskState) : Decidable (completeImpliesZero s) := by
  unfold completeImpliesZero; infer_instance

/-- How many workers are in the Running state. -/
def runningCount (s : TaskState) : Nat :=
  (if s.ledRunning then 1 else 0) + (if s.counterRunning then 1 else 0) +
    (if s.alphabetRunning then 1 else 0)

/-- Every worker whose completion flag is set is suspended.  This holds
of every reachable state: a worker sets its completion flag only inside
its own slice, which it always ends by self-suspending. -/
def completeSuspended (s : TaskState) : Prop :=
  (s.ledComplete = true → s.ledRunning = false) ∧
  (s.counterComplete = true → s.counterRunning = false) ∧
  (s.alphabetComplete = true → s.alphabetRunning = false)

instance (s : TaskState) : Decidable (completeSuspended s) := by
  unfold completeSuspended; infer_instance

/-- A led task with exactly one slice (10 ms) of work left. -/
def ledOneSliceLeft : TaskState :=
  { initialState realConfig with remainingLedTime := 10 }

/-- All three tasks already out of quota, with the led on, the counter
display at 7 and the letter at M (code 77). -/
def allQuotaExhausted : TaskState :=
  { initialState realConfig with
      remainingLedTime := 0, remainingCounterTime := 0, remainingAlphabetTime := 0,
      ledPin := true, count := 7, currLetter := 77 }

/-- All three tasks with exactly one 10 ms slice of work left. -/
def allOneSliceLeft : TaskState :=
  { initialState realConfig with
      remainingLedTime := 10, remainingCounterTime := 10, remainingAlphabetTime := 10 }

/-- A state about to expose the gap in the claimed invariant: the led
task holds its final 10 ms of work, and every completion flag agrees
with its remaining time. -/
def ledFinalSliceState : TaskState :=
  { initialState realConfig with
      remainingLedTime := 10, remainingCounterTime := 600, remainingAlphabetTime := 800 }

/-- The tie-break scenario pinned by the spec: items X (id 0, the led
task) and Y (id 1, the counter task) both have 30 ms remaining and are
both eligible; the third task is complete and out of the running. -/
def tieState : TaskState :=
  { initialState realConfig with
      remainingLedTime := 30, remainingCounterTime := 30,
      remainingAlphabetTime := 0, alphabetComplete := true }

/-- The cycle boundary as it actually occurs: every remaining time is
already 0, the led and counter tasks have observed that and set their
flags, but the alphabet task has not yet been resumed to do so. -/
def allQuotaZeroNotAllComplete : TaskState :=
  { initialState realConfig with
      remainingLedTime := 0, remainingCounterTime := 0, remainingAlphabetTime := 0,
      ledComplete := true, counterComplete := true, alphabetComplete := false }

/-- The state one iteration later: every completion flag observed and
set, ready for the cycle reset. -/
def allCompleteState : TaskState :=
  { initialState realConfig with
      remainingLedTime := 0, remainingCounterTime := 0, remainingAlphabetTime := 0,
      ledComplete := true, counterComplete := true, alphabetComplete := true,
      cycleNotices := 4 }

/-- A state with stale running flags on the two incomplete workers and
a complete (suspended, as always) alphabet task, exercising preemption
enforcement. -/
def staleRunningState : TaskState :=
  { initialState realConfig with
      remainingLedTime := 40, remainingCounterTime := 50, remainingAlphabetTime := 0,
      alphabetComplete := true, ledRunning := true, counterRunning := true }

/-- The spec's scenario quotas: A (led) = 50, B (counter) = 80,
C (alphabet) = 30, slice 10. -/
def scenarioConfig : Config :=
  { ledTaskExecutionTime := 50
    counterTaskExecutionTime := 80
    alphabetTaskExecutionTime := 30 }

/-- The scenario trace: scheduler iterations at ticks 0, 10, 20, 30. -/
def scenario0 : TaskState := initialState scenarioConfig

def scenario1 : TaskState := scheduleTasksStep scenarioConfig 0 scenario0

def scenario2 : TaskState := scheduleTasksStep scenarioConfig 10 scenario1

def scenario3 : TaskState := scheduleTasksStep scenarioConfig 20 scenario2

def scenario4 : TaskState := scheduleTasksStep scenarioConfig 30 scenario3

/-- `n` consecutive resumes of the counter task, one work-slice period
apart, starting at tick `now`. -/
def runCounterSlices : Nat → Nat → TaskState → TaskState
  | 0, _, s => s
  | n + 1, now, s => runCounterSlices n (now + workSliceDelay) (counterTaskSlice now s)

/-- A configuration whose counter quota (70 ms) is not a multiple of
the counter's 100 ms cadence window, so sub-slice progress is pending
when the quota runs out. -/
def carryConfig : Config :=
  { ledTaskExecutionTime := 0
    counterTaskExecutionTime := 70
    alphabetTaskExecutionTime := 0 }

/-- Start of a cycle in which only the counter task has work. -/
def carryStart : TaskState :=
  { initialState carryConfig with ledComplete := true, alphabetComplete := true }

/-- The counter task driven through its whole 70 ms cycle (7 work
slices) and its completion resume. -/
def carryEnd : TaskState := runCounterSlices 8 0 carryStart

/-- The scheduler's cycle reset applied at that point. -/
def carryReset : TaskState := cycleResetCheck carryConfig carryEnd

/-- A led slice invoked with its remaining time already 0 takes the
completion branch. -/
theorem ledTaskSlice_of_zero (now : Nat) (s : TaskState)
    (h : s.remainingLedTime = 0) :
    ledTaskSlice now s
      = { s with ledWakeTime := 0, ledComplete := true, ledPin := false,
                 ledRunning := false } := by
  simp [ledTaskSlice, h]

/-- A counter slice invoked with its remaining time already 0 takes the
completion branch. -/
theorem counterTaskSlice_of_zero (now : Nat) (s : TaskState)
    (h : s.remainingCounterTime = 0) :
    counterTaskSlice now s
      = { s with counterWakeTime := 0, count := 1, counterComplete := true,
                 counterRunning := false } := by
  simp [counterTaskSlice, h]

/-- An alphabet slice invoked with its remaining time already 0 takes
the completion branch. -/
theorem alphabetTaskSlice_of_zero (now : Nat) (s : TaskState)
    (h : s.remainingAlphabetTime = 0) :
    alphabetTaskSlice now s
      = { s with alphabetWakeTime := 0, currLetter := 65, alphabetComplete := true,
                 alphabetRunning := false } := by
  simp [alphabetTaskSlice, h]

/-- The led slice that consumes the last of the quota: remaining time
drops to 0, the completion flag is untouched, and a future wake tick is
recorded. -/
theorem ledTaskSlice_final_work (now : Nat) (s : TaskState)
    (h2 : 0 < s.remainingLedTime) (h3 : s.remainingLedTime ≤ workSliceDelay) :
    (ledTaskSlice now s).remainingLedTime = 0 ∧
    (ledTaskSlice now s).ledComplete = s.ledComplete ∧
    (ledTaskSlice now s).ledWakeTime = myTaskDelay workSliceDelay now ∧
    (ledTaskSlice now s).ledRunning = false := by
  simp only [ledTaskSlice, myTaskDelay, workSliceDelay] at h3 ⊢
  split_ifs <;> simp_all

/-- The counter slice that consumes the last of the quota. -/
theorem counterTaskSlice_final_work (now : Nat) (s : TaskState)
    (h2 : 0 < s.remainingCounterTime) (h3 : s.remainingCounterTime ≤ workSliceDelay) :
    (counterTaskSlice now s).remainingCounterTime = 0 ∧
    (counterTaskSlice now s).counterComplete = s.counterComplete ∧
    (counterTaskSlice now s).counterWakeTime = myTaskDelay workSliceDelay now ∧
    (counterTaskSlice now s).counterRunning = false := by
  simp only [counterTaskSlice, myTaskDelay, workSliceDelay] at h3 ⊢
  split_ifs <;> simp_all

/-- The alphabet slice that consumes the last of the quota. -/
theorem alphabetTaskSlice_final_work (now : Nat) (s : TaskState)
    (h2 : 0 < s.remainingAlphabetTime) (h3 : s.remainingAlphabetTime ≤ workSliceDelay) :
    (alphabetTaskSlice now s).remainingAlphabetTime = 0 ∧
    (alphabetTaskSlice now s).alphabetComplete = s.alphabetComplete ∧
    (alphabetTaskSlice now s).alphabetWakeTime = myTaskDelay workSliceDelay now ∧
    (alphabetTaskSlice now s).alphabetRunning = false := by
  simp only [alphabetTaskSlice, myTaskDelay, workSliceDelay] at h3 ⊢
  split_ifs <;> simp_all

/-- Claim C5: every invocation of a worker's slice on an item with work
left decrements its remaining time by exactly
min(sliceSize, remainingQuota) and never underflows; remaining time is
non-increasing under a slice and stays bounded by the total quota. -/
theorem runSlice_decrements_by_min (cfg : Config) (now : Nat) (s : TaskState) :
    (s.remainingLedTime > 0 →
      (ledTaskSlice now s).remainingLedTime
        = s.remainingLedTime - min workSliceDelay s.remainingLedTime) ∧
    (s.remainingCounterTime > 0 →
      (counterTaskSlice now s).remainingCounterTime
        = s.remainingCounterTime - min workSliceDelay s.remainingCounterTime) ∧
    (s.remainingAlphabetTime > 0 →
      (alphabetTaskSlice now s).remainingAlphabetTime
        = s.remainingAlphabetTime - min workSliceDelay s.remainingAlphabetTime) ∧
    (ledTaskSlice now s).remainingLedTime ≤ s.remainingLedTime ∧
    (counterTaskSlice now s).remainingCounterTime ≤ s.remainingCounterTime ∧
    (alphabetTaskSlice now s).remainingAlphabetTime ≤ s.remainingAlphabetTime ∧
    (s.remainingLedTime ≤ cfg.ledTaskExecutionTime →
      (ledTaskSlice now s).remainingLedTime ≤ cfg.ledTaskExecutionTime) ∧
    (s.remainingCounterTime ≤ cfg.counterTaskExecutionTime →
      (counterTaskSlice now s).remainingCounterTime ≤ cfg.counterTaskExecutionTime) ∧
    (s.remainingAlphabetTime ≤ cfg.alphabetTaskExecutionTime →
      (alphabetTaskSlice now s).remainingAlphabetTime ≤ cfg.alphabetTaskExecutionTime) := by
  simp only [ledTaskSlice, counterTaskSlice, alphabetTaskSlice, myTaskDelay, workSliceDelay]
  refine ⟨?_, ?_, ?_, ?_, ?_, ?_, ?_, ?_, ?_⟩ <;>
    split_ifs <;> simp_all <;> omega

/-- Claim C5 witness: evaluation at a concrete state with 7 ms of led
work, 2000 ms of counter work and 13000 ms of alphabet work left. -/
theorem runSlice_decrements_by_min_witness :
    (let s := { initialState realConfig with remainingLedTime := 7 };
     s.remainingLedTime > 0 ∧
     (ledTaskSlice 0 s).remainingLedTime
        = s.remainingLedTime - min workSliceDelay s.remainingLedTime ∧
     (ledTaskSlice 0 s).remainingLedTime = 0 ∧
     (counterTaskSlice 0 s).remainingCounterTime = 1990) := by
  refine ⟨by decide, ((runSlice_decrements_by_min realConfig 0 _).1 (by decide)), by decide, by decide⟩

/-- Claim C6: a worker whose wake time lies strictly in the future is
never selected as the candidate, whatever its remaining time. -/
theorem asleep_task_never_selected (t : Nat) (s : TaskState) :
    (s.ledWakeTime > t → selectNext t s ≠ some TaskId.led) ∧
    (s.counterWakeTime > t → selectNext t s ≠ some TaskId.counter) ∧
    (s.alphabetWakeTime > t → selectNext t s ≠ some TaskId.alphabet) := by
  simp only [selectNext, evalLedTask, evalCounterTask, evalAlphabetTask]
  refine ⟨?_, ?_, ?_⟩ <;> intro h <;> split_ifs <;> simp_all <;> omega

/-- Claim C6 witness: at tick 5, a led task asleep until tick 6 is not
selected even with the globally smallest remaining time; the counter
task is selected instead. -/
theorem asleep_task_never_selected_witness :
    (let s := { initialState realConfig with remainingLedTime := 1, ledWakeTime := 6 };
     s.ledWakeTime > 5 ∧ selectNext 5 s ≠ some TaskId.led ∧
     selectNext 5 s = some TaskId.counter) := by
  refine ⟨by decide, (asleep_task_never_selected 5 _).1 (by decide), by decide⟩

/-- Claim C4 counterexample: the slice that brings the led task's
remaining time to 0 does not set `ledComplete` and does schedule a new
wake tick (5 + 10 = 15), contrary to the claim that completion and its
side effects happen in the slice that exhausts the quota. -/
theorem completion_in_exhausting_slice_cx :
    (ledTaskSlice 5 ledOneSliceLeft).remainingLedTime = 0 ∧
    (ledTaskSlice 5 ledOneSliceLeft).ledComplete = false ∧
    (ledTaskSlice 5 ledOneSliceLeft).ledWakeTime = 15 := by decide

/-- Claim C4 as amended: the completion effects happen on the resume
that finds the remaining time already 0: that slice sets the completion
flag, performs the one-time completion side effect (led forced low,
counter display reset to 1, letter reset to A) and records a wake tick
of 0 rather than a future wake tick. -/
theorem completion_effects_on_zero_quota_resume (now : Nat) (s : TaskState) :
    (s.remainingLedTime = 0 →
      (ledTaskSlice now s).ledComplete = true ∧
      (ledTaskSlice now s).ledPin = false ∧
      (ledTaskSlice now s).ledWakeTime = 0) ∧
    (s.remainingCounterTime = 0 →
      (counterTaskSlice now s).counterComplete = true ∧
      (counterTaskSlice now s).count = 1 ∧
      (counterTaskSlice now s).counterWakeTime = 0) ∧
    (s.remainingAlphabetTime = 0 →
      (alphabetTaskSlice now s).alphabetComplete = true ∧
      (alphabetTaskSlice now s).currLetter = 65 ∧
      (alphabetTaskSlice now s).alphabetWakeTime = 0) := by
  refine ⟨?_, ?_, ?_⟩ <;> intro h <;>
    simp only [ledTaskSlice, counterTaskSlice, alphabetTaskSlice] <;>
    split_ifs <;> simp_all

/-- Claim C4 witness: the amended completion behavior evaluated on a
concrete exhausted state with the led on, the counter at 7 and the
letter at M. -/
theorem completion_effects_on_zero_quota_resume_witness :
    (ledTaskSlice 3 allQuotaExhausted).ledComplete = true ∧
    (ledTaskSlice 3 allQuotaExhausted).ledPin = false ∧
    (counterTaskSlice 3 allQuotaExhausted).count = 1 ∧
    (alphabetTaskSlice 3 allQuotaExhausted).currLetter = 65 ∧
    (alphabetTaskSlice 3 allQuotaExhausted).alphabetWakeTime = 0 :=
  ⟨((completion_effects_on_zero_quota_resume 3 allQuotaExhausted).1 rfl).1,
   ((completion_effects_on_zero_quota_resume 3 allQuotaExhausted).1 rfl).2.1,
   ((completion_effects_on_zero_quota_resume 3 allQuotaExhausted).2.1 rfl).2.1,
   ((completion_effects_on_zero_quota_resume 3 allQuotaExhausted).2.2 rfl).2.1,
   ((completion_effects_on_zero_quota_resume 3 allQuotaExhausted).2.2 rfl).2.2⟩

/-- Claim C9: a slice that decrements the remaining time to exactly 0
does not set the completion flag in that same slice — it still records
a wake tick of now + sliceSize and self-suspends — leaving a reachable
intermediate state with remaining time 0 and completion flag false;
completion then happens on the item's next resume. -/
theorem completion_deferred_to_next_resume (now now2 : Nat) (s : TaskState) :
    (s.ledComplete = false → 0 < s.remainingLedTime →
      s.remainingLedTime ≤ workSliceDelay →
      (ledTaskSlice now s).remainingLedTime = 0 ∧
      (ledTaskSlice now s).ledComplete = false ∧
      (ledTaskSlice now s).ledWakeTime = myTaskDelay workSliceDelay now ∧
      (ledTaskSlice now s).ledRunning = false ∧
      (ledTaskSlice now2 (ledTaskSlice now s)).ledComplete = true) ∧
    (s.counterComplete = false → 0 < s.remainingCounterTime →
      s.remainingCounterTime ≤ workSliceDelay →
      (counterTaskSlice now s).remainingCounterTime = 0 ∧
      (counterTaskSlice now s).counterComplete = false ∧
      (counterTaskSlice now s).counterWakeTime = myTaskDelay workSliceDelay now ∧
      (counterTaskSlice now s).counterRunning = false ∧
      (counterTaskSlice now2 (counterTaskSlice now s)).counterComplete = true) ∧
    (s.alphabetComplete = false → 0 < s.remainingAlphabetTime →
      s.remainingAlphabetTime ≤ workSliceDelay →
      (alphabetTaskSlice now s).remainingAlphabetTime = 0 ∧
      (alphabetTaskSlice now s).alphabetComplete = false ∧
      (alphabetTaskSlice now s).alphabetWakeTime = myTaskDelay workSliceDelay now ∧
      (alphabetTaskSlice now s).alphabetRunning = false ∧
      (alphabetTaskSlice now2 (alphabetTaskSlice now s)).alphabetComplete = true) := by
  refine ⟨fun h1 h2 h3 => ?_, fun h1 h2 h3 => ?_, fun h1 h2 h3 => ?_⟩
  · obtain ⟨hr, hc, hw, hrun⟩ := ledTaskSlice_final_work now s h2 h3
    exact ⟨hr, hc.trans h1, hw, hrun, by rw [ledTaskSlice_of_zero now2 _ hr]⟩
  · obtain ⟨hr, hc, hw, hrun⟩ := counterTaskSlice_final_work now s h2 h3
    exact ⟨hr, hc.trans h1, hw, hrun, by rw [counterTaskSlice_of_zero now2 _ hr]⟩
  · obtain ⟨hr, hc, hw, hrun⟩ := alphabetTaskSlice_final_work now s h2 h3
    exact ⟨hr, hc.trans h1, hw, hrun, by rw [alphabetTaskSlice_of_zero now2 _ hr]⟩

/-- Claim C9 witness: all three tasks with exactly one 10 ms slice of
work left, sliced at tick 0 and resumed again at tick 10. -/
theorem completion_deferred_to_next_resume_witness :
    ((ledTaskSlice 0 allOneSliceLeft).remainingLedTime = 0 ∧
      (ledTaskSlice 0 allOneSliceLeft).ledComplete = false ∧
      (ledTaskSlice 0 allOneSliceLeft).ledWakeTime = myTaskDelay workSliceDelay 0 ∧
      (ledTaskSlice 0 allOneSliceLeft).ledRunning = false ∧
      (ledTaskSlice 10 (ledTaskSlice 0 allOneSliceLeft)).ledComplete = true) ∧
    ((counterTaskSlice 0 allOneSliceLeft).remainingCounterTime = 0 ∧
      (counterTaskSlice 0 allOneSliceLeft).counterComplete = false ∧
      (counterTaskSlice 0 allOneSliceLeft).counterWakeTime = myTaskDelay workSliceDelay 0 ∧
      (counterTaskSlice 0 allOneSliceLeft).counterRunning = false ∧
      (counterTaskSlice 10 (counterTaskSlice 0 allOneSliceLeft)).counterComplete = true) :=
  ⟨(completion_deferred_to_next_resume 0 10 allOneSliceLeft).1 rfl (by decide) (by decide),
   (completion_deferred_to_next_resume 0 10 allOneSliceLeft).2.1 rfl (by decide) (by decide)⟩

/-- Each worker slice preserves the invariant that a set completion
flag implies zero remaining time. -/
theorem completeImpliesZero_ledTaskSlice (now : Nat) (s : TaskState)
    (h : completeImpliesZero s) : completeImpliesZero (ledTaskSlice now s) := by
  obtain ⟨h1, h2, h3⟩ := h
  simp only [completeImpliesZero, ledTaskSlice] at *
  split_ifs <;> simp_all

theorem completeImpliesZero_counterTaskSlice (now : Nat) (s : TaskState)
    (h : completeImpliesZero s) : completeImpliesZero (counterTaskSlice now s) := by
  obtain ⟨h1, h2, h3⟩ := h
  simp only [completeImpliesZero, counterTaskSlice] at *
  split_ifs <;> simp_all

theorem completeImpliesZero_alphabetTaskSlice (now : Nat) (s : TaskState)
    (h : completeImpliesZero s) : completeImpliesZero (alphabetTaskSlice now s) := by
  obtain ⟨h1, h2, h3⟩ := h
  simp only [completeImpliesZero, alphabetTaskSlice] at *
  split_ifs <;> simp_all

/-- The cycle-reset check preserves that invariant (a reset clears all
completion flags). -/
theorem completeImpliesZero_cycleResetCheck (cfg : Config) (s : TaskState)
    (h : completeImpliesZero s) : completeImpliesZero (cycleResetCheck cfg s) := by
  obtain ⟨h1, h2, h3⟩ := h
  simp only [completeImpliesZero, cycleResetCheck] at *
  split_ifs <;> simp_all

/-- Preemption enforcement only touches running flags, so it preserves
the invariant as well. -/
theorem completeImpliesZero_suspendNonSelected (nt : Option TaskId) (s : TaskState)
    (h : completeImpliesZero s) : completeImpliesZero (suspendNonSelected nt s) := by
  obtain ⟨h1, h2, h3⟩ := h
  simp only [completeImpliesZero, suspendNonSelected] at *
  split_ifs <;> simp_all

/-- Resuming a worker only touches running flags. -/
theorem completeImpliesZero_resumeTask (t : TaskId) (s : TaskState)
    (h : completeImpliesZero s) : completeImpliesZero (resumeTask t s) := by
  obtain ⟨h1, h2, h3⟩ := h
  cases t <;> simp only [completeImpliesZero, resumeTask] at * <;> simp_all

/-- A full scheduler iteration preserves the invariant. -/
theorem completeImpliesZero_scheduleTasksStep (cfg : Config) (now : Nat) (s : TaskState)
    (h : completeImpliesZero s) : completeImpliesZero (scheduleTasksStep cfg now s) := by
  have hreset := completeImpliesZero_cycleResetCheck cfg s h
  simp only [scheduleTasksStep]
  cases hnt : selectNext now (cycleResetCheck cfg s) with
  | none =>
      simp only [hnt]
      exact completeImpliesZero_suspendNonSelected none _ hreset
  | some t =>
      simp only [hnt]
      have hsusp := completeImpliesZero_suspendNonSelected (some t) _ hreset
      have hres := completeImpliesZero_resumeTask t _ hsusp
      cases t with
      | led => exact completeImpliesZero_ledTaskSlice now _ hres
      | counter => exact completeImpliesZero_counterTaskSlice now _ hres
      | alphabet => exact completeImpliesZero_alphabetTaskSlice now _ hres

/-- Claim C3 counterexample: the claimed two-way invariant
`complete == (remainingQuota == 0)` holds of `ledFinalSliceState`, yet
the very next led slice breaks it: the remaining time drops to 0 while
the completion flag stays false. -/
theorem complete_iff_zero_invariant_cx :
    completeMatchesZero ledFinalSliceState ∧
    ¬ completeMatchesZero (ledTaskSlice 0 ledFinalSliceState) ∧
    (ledTaskSlice 0 ledFinalSliceState).remainingLedTime = 0 ∧
    (ledTaskSlice 0 ledFinalSliceState).ledComplete = false := by decide

/-- Claim C3 as amended: only one direction holds between operations —
a set completion flag implies zero remaining time — and it is preserved
by every worker slice and every scheduler iteration; the converse fails
on the slice that zeroes the quota (completion is set one resume
later). -/
theorem complete_implies_zero_invariant (cfg : Config) (now : Nat) (s : TaskState)
    (h : completeImpliesZero s) :
    completeImpliesZero (ledTaskSlice now s) ∧
    completeImpliesZero (counterTaskSlice now s) ∧
    completeImpliesZero (alphabetTaskSlice now s) ∧
    completeImpliesZero (scheduleTasksStep cfg now s) :=
  ⟨completeImpliesZero_ledTaskSlice now s h,
   completeImpliesZero_counterTaskSlice now s h,
   completeImpliesZero_alphabetTaskSlice now s h,
   completeImpliesZero_scheduleTasksStep cfg now s h⟩

/-- Claim C3 witness: the amended invariant propagated through one
scheduler iteration from the startup state. -/
theorem complete_implies_zero_invariant_witness :
    completeImpliesZero (scheduleTasksStep realConfig 0 (initialState realConfig)) :=
  (complete_implies_zero_invariant realConfig 0 (initialState realConfig) (by decide)).2.2.2

/-- Claim C2 counterexample: in the reachable boundary state where all
three remaining times are 0 but the alphabet task has not yet been
resumed to set its flag, the very next scheduler iteration does not
restore any quota (the led quota stays 0, not 500) and ends with an
item newly marked complete — the reset only happens on a later
iteration, triggered by the flags, not by the quotas. -/
theorem quota_exhaustion_is_not_reset_trigger_cx :
    allQuotaZeroNotAllComplete.remainingLedTime = 0 ∧
    allQuotaZeroNotAllComplete.remainingCounterTime = 0 ∧
    allQuotaZeroNotAllComplete.remainingAlphabetTime = 0 ∧
    (scheduleTasksStep realConfig 0 allQuotaZeroNotAllComplete).remainingLedTime = 0 ∧
    (scheduleTasksStep realConfig 0 allQuotaZeroNotAllComplete).remainingLedTime
      ≠ realConfig.ledTaskExecutionTime ∧
    (scheduleTasksStep realConfig 0 allQuotaZeroNotAllComplete).alphabetComplete
      = true := by decide

/-- Claim C2 as amended: a cycle reset occurs iff all three completion
flags are simultaneously set (not when the quotas hit 0, which precedes
the flags by one dispatch per item); when they are, the reset check of
the very next iteration atomically restores every remaining time to its
total, zeroes every wake time, clears every completion flag — no item
remains complete — and emits one cycle-completion notice. -/
theorem cycle_reset_iff_all_complete (cfg : Config) (s : TaskState) :
    (¬(s.ledComplete = true ∧ s.counterComplete = true ∧ s.alphabetComplete = true) →
      cycleResetCheck cfg s = s) ∧
    (s.ledComplete = true ∧ s.counterComplete = true ∧ s.alphabetComplete = true →
      (cycleResetCheck cfg s).remainingLedTime = cfg.ledTaskExecutionTime ∧
      (cycleResetCheck cfg s).remainingCounterTime = cfg.counterTaskExecutionTime ∧
      (cycleResetCheck cfg s).remainingAlphabetTime = cfg.alphabetTaskExecutionTime ∧
      (cycleResetCheck cfg s).ledWakeTime = 0 ∧
      (cycleResetCheck cfg s).counterWakeTime = 0 ∧
      (cycleResetCheck cfg s).alphabetWakeTime = 0 ∧
      (cycleResetCheck cfg s).ledComplete = false ∧
      (cycleResetCheck cfg s).counterComplete = false ∧
      (cycleResetCheck cfg s).alphabetComplete = false ∧
      (cycleResetCheck cfg s).cycleNotices = s.cycleNotices + 1) := by
  constructor <;> intro h <;> simp only [cycleResetCheck] <;> split_ifs <;> simp_all

/-- Claim C2 witness: the reset at a concrete all-complete state, and
the absence of a reset at the startup state. -/
theorem cycle_reset_iff_all_complete_witness :
    (cycleResetCheck realConfig allCompleteState).remainingLedTime
        = realConfig.ledTaskExecutionTime ∧
    (cycleResetCheck realConfig allCompleteState).ledComplete = false ∧
    (cycleResetCheck realConfig allCompleteState).cycleNotices
        = allCompleteState.cycleNotices + 1 ∧
    cycleResetCheck realConfig (initialState realConfig) = initialState realConfig :=
  ⟨((cycle_reset_iff_all_complete realConfig allCompleteState).2 (by decide)).1,
   ((cycle_reset_iff_all_complete realConfig allCompleteState).2
      (by decide)).2.2.2.2.2.2.1,
   ((cycle_reset_iff_all_complete realConfig allCompleteState).2
      (by decide)).2.2.2.2.2.2.2.2.2,
   (cycle_reset_iff_all_complete realConfig (initialState realConfig)).1 (by decide)⟩

/-- Claim C10: the per-item cadence counter is reset neither by the
completion branch nor by the cycle reset, so residual sub-slice
progress carries into the next cycle: after a 70 ms counter cycle the
counter task carries 70 ms of cadence progress through completion and
reset, and the first LCD update of the new cycle arrives after only 3
slices instead of a full 10-slice (100 ms) cadence window (from a fresh
counter, 3 slices produce no update). -/
theorem ticksElapsed_persists_across_cycles (cfg : Config) (now : Nat) (s : TaskState) :
    (s.remainingLedTime = 0 →
      (ledTaskSlice now s).ledTicksElapsed = s.ledTicksElapsed) ∧
    (s.remainingCounterTime = 0 →
      (counterTaskSlice now s).counterTicksElapsed = s.counterTicksElapsed) ∧
    (s.remainingAlphabetTime = 0 →
      (alphabetTaskSlice now s).alphabetTicksElapsed = s.alphabetTicksElapsed) ∧
    (cycleResetCheck cfg s).ledTicksElapsed = s.ledTicksElapsed ∧
    (cycleResetCheck cfg s).counterTicksElapsed = s.counterTicksElapsed ∧
    (cycleResetCheck cfg s).alphabetTicksElapsed = s.alphabetTicksElapsed ∧
    carryEnd.counterComplete = true ∧
    carryEnd.counterTicksElapsed = 70 ∧
    carryReset.counterTicksElapsed = 70 ∧
    carryReset.remainingCounterTime = 70 ∧
    (runCounterSlices 3 80 carryReset).count = 2 ∧
    (runCounterSlices 2 80 carryReset).count = 1 ∧
    (runCounterSlices 3 0 (initialState carryConfig)).count = 1 := by
  refine ⟨fun h => ?_, fun h => ?_, fun h => ?_, ?_, ?_, ?_,
    by decide, by decide, by decide, by decide, by decide, by decide, by decide⟩
  · rw [ledTaskSlice_of_zero now s h]
  · rw [counterTaskSlice_of_zero now s h]
  · rw [alphabetTaskSlice_of_zero now s h]
  · simp only [cycleResetCheck]; split_ifs <;> rfl
  · simp only [cycleResetCheck]; split_ifs <;> rfl
  · simp only [cycleResetCheck]; split_ifs <;> rfl

/-- Claim C10 witness: the preservation parts evaluated where the led
and alphabet quotas are 0. -/
theorem ticksElapsed_persists_across_cycles_witness :
    (ledTaskSlice 0 (initialState carryConfig)).ledTicksElapsed
        = (initialState carryConfig).ledTicksElapsed ∧
    (cycleResetCheck carryConfig (initialState carryConfig)).counterTicksElapsed
        = (initialState carryConfig).counterTicksElapsed :=
  ⟨(ticksElapsed_persists_across_cycles carryConfig 0 (initialState carryConfig)).1 rfl,
   (ticksElapsed_persists_across_cycles carryConfig 0
      (initialState carryConfig)).2.2.2.2.1⟩

/-- The cycle-reset check preserves suspension of complete workers (a
reset clears all completion flags). -/
theorem completeSuspended_cycleResetCheck (cfg : Config) (s : TaskState)
    (h : completeSuspended s) : completeSuspended (cycleResetCheck cfg s) := by
  obtain ⟨h1, h2, h3⟩ := h
  simp only [completeSuspended, cycleResetCheck] at *
  split_ifs <;> simp_all

/-- After preemption enforcement, every worker other than the selected
one is suspended: incomplete ones are suspended explicitly, complete
ones were already suspended. -/
theorem suspendNonSelected_running (nt : Option TaskId) (s : TaskState)
    (h : completeSuspended s) :
    (nt ≠ some TaskId.led → (suspendNonSelected nt s).ledRunning = false) ∧
    (nt ≠ some TaskId.counter → (suspendNonSelected nt s).counterRunning = false) ∧
    (nt ≠ some TaskId.alphabet → (suspendNonSelected nt s).alphabetRunning = false) := by
  obtain ⟨h1, h2, h3⟩ := h
  simp only [suspendNonSelected]
  refine ⟨?_, ?_, ?_⟩ <;> intro hne <;> split_ifs <;> simp_all

/-- Claim C7: each scheduler iteration forces every worker that is not
the candidate into the suspended state (incomplete ones explicitly,
complete ones having already suspended themselves), so at the instant
the candidate is resumed at most one worker is running. -/
theorem scheduler_enforces_mutual_exclusion (cfg : Config) (now : Nat) (s : TaskState)
    (h : completeSuspended s) :
    runningCount (afterPreemption cfg now s) ≤ 1 ∧
    (selectNext now (cycleResetCheck cfg s) ≠ some TaskId.led →
      (afterPreemption cfg now s).ledRunning = false) ∧
    (selectNext now (cycleResetCheck cfg s) ≠ some TaskId.counter →
      (afterPreemption cfg now s).counterRunning = false) ∧
    (selectNext now (cycleResetCheck cfg s) ≠ some TaskId.alphabet →
      (afterPreemption cfg now s).alphabetRunning = false) := by
  have hs1 := completeSuspended_cycleResetCheck cfg s h
  obtain ⟨f1, f2, f3⟩ :=
    suspendNonSelected_running (selectNext now (cycleResetCheck cfg s)) _ hs1
  simp only [afterPreemption]
  cases hnt : selectNext now (cycleResetCheck cfg s) with
  | none =>
      rw [hnt] at f1 f2 f3
      have g1 := f1 (by simp)
      have g2 := f2 (by simp)
      have g3 := f3 (by simp)
      exact ⟨by simp [runningCount, g1, g2, g3], fun _ => g1, fun _ => g2, fun _ => g3⟩
  | some t =>
      rw [hnt] at f1 f2 f3
      cases t with
      | led =>
          have g2 := f2 (by simp)
          have g3 := f3 (by simp)
          refine ⟨by simp [runningCount, resumeTask, g2, g3],
            fun hne => absurd rfl hne, fun _ => ?_, fun _ => ?_⟩
          · simp [resumeTask, g2]
          · simp [resumeTask, g3]
      | counter =>
          have g1 := f1 (by simp)
          have g3 := f3 (by simp)
          refine ⟨by simp [runningCount, resumeTask, g1, g3],
            fun _ => ?_, fun hne => absurd rfl hne, fun _ => ?_⟩
          · simp [resumeTask, g1]
          · simp [resumeTask, g3]
      | alphabet =>
          have g1 := f1 (by simp)
          have g2 := f2 (by simp)
          refine ⟨by simp [runningCount, resumeTask, g1, g2],
            fun _ => ?_, fun _ => ?_, fun hne => absurd rfl hne⟩
          · simp [resumeTask, g1]
          · simp [resumeTask, g2]

/-- Claim C7 witness: preemption enforcement at a state in which both
incomplete workers carry stale running flags; the led task (smallest
remaining time) is the candidate, the counter task is forced out. -/
theorem scheduler_enforces_mutual_exclusion_witness :
    completeSuspended staleRunningState ∧
    runningCount (afterPreemption realConfig 0 staleRunningState) ≤ 1 ∧
    (afterPreemption realConfig 0 staleRunningState).counterRunning = false ∧
    (afterPreemption realConfig 0 staleRunningState).ledRunning = true :=
  ⟨by decide,
   (scheduler_enforces_mutual_exclusion realConfig 0 staleRunningState (by decide)).1,
   (scheduler_enforces_mutual_exclusion realConfig 0 staleRunningState
      (by decide)).2.2.1 (by decide),
   by decide⟩

/-- Claim C1: the first-evaluated task becomes candidate only under a
strict comparison while each later task replaces the candidate under a
non-strict one, so of two eligible, incomplete tasks tied at the
minimum remaining time, the later-registered one is selected — stated
for all three pairs (with the remaining third task not beating the
tie), and in particular the pinned X/Y scenario selects Y (the counter
task). -/
theorem tie_break_favors_later_task (t : Nat) (s : TaskState) :
    (s.ledComplete = false → s.counterComplete = false →
      t ≥ s.ledWakeTime → t ≥ s.counterWakeTime →
      s.remainingLedTime = s.remainingCounterTime →
      s.remainingCounterTime ≤ portMAX_DELAY →
      ¬(s.alphabetComplete = false ∧ s.remainingAlphabetTime ≤ s.remainingCounterTime ∧
          t ≥ s.alphabetWakeTime) →
      selectNext t s = some TaskId.counter) ∧
    (s.ledComplete = false → s.alphabetComplete = false →
      t ≥ s.ledWakeTime → t ≥ s.alphabetWakeTime →
      s.remainingLedTime = s.remainingAlphabetTime →
      s.remainingAlphabetTime ≤ portMAX_DELAY →
      ¬(s.counterComplete = false ∧ s.remainingCounterTime < s.remainingAlphabetTime ∧
          t ≥ s.counterWakeTime) →
      selectNext t s = some TaskId.alphabet) ∧
    (s.counterComplete = false → s.alphabetComplete = false →
      t ≥ s.counterWakeTime → t ≥ s.alphabetWakeTime →
      s.remainingCounterTime = s.remainingAlphabetTime →
      s.remainingAlphabetTime ≤ portMAX_DELAY →
      ¬(s.ledComplete = false ∧ s.remainingLedTime < s.remainingCounterTime ∧
          t ≥ s.ledWakeTime) →
      selectNext t s = some TaskId.alphabet) ∧
    selectNext 0 tieState = some TaskId.counter := by
  refine ⟨?_, ?_, ?_, by decide⟩ <;>
    intro h1 h2 h3 h4 h5 h6 h7 <;>
    simp only [selectNext, evalLedTask, evalCounterTask, evalAlphabetTask,
      portMAX_DELAY] at * <;>
    split_ifs <;> simp_all

/-- Claim C1 witness: the pinned tie-break scenario — X (led, 30 ms)
and Y (counter, 30 ms) both eligible at tick 0 — selects Y, through the
pairwise tie-break theorem. -/
theorem tie_break_favors_later_task_witness :
    selectNext 0 tieState = some TaskId.counter :=
  (tie_break_favors_later_task 0 tieState).1 (by decide) (by decide) (by decide)
    (by decide) (by decide) (by decide) (by decide)

/-- Claim C8: the pinned scenario with quotas A (led) = 50,
B (counter) = 80, C (alphabet) = 30 and slice 10, all awake at tick 0:
C is selected at ticks 0, 10 and 20 (global minimum, no tie), reaching
remaining 20, 10 and 0 with wake ticks 10, 20 and 30; at tick 30 C is
dispatched once more and completes, after which A (remaining 50) is the
minimum among A and B and is selected. -/
theorem srtf_scenario_trace :
    selectNext 0 (cycleResetCheck scenarioConfig scenario0) = some TaskId.alphabet ∧
    scenario1.remainingAlphabetTime = 20 ∧
    scenario1.alphabetWakeTime = 10 ∧
    scenario1.remainingLedTime = 50 ∧
    scenario1.remainingCounterTime = 80 ∧
    selectNext 10 (cycleResetCheck scenarioConfig scenario1) = some TaskId.alphabet ∧
    scenario2.remainingAlphabetTime = 10 ∧
    scenario2.alphabetWakeTime = 20 ∧
    selectNext 20 (cycleResetCheck scenarioConfig scenario2) = some TaskId.alphabet ∧
    scenario3.remainingAlphabetTime = 0 ∧
    scenario3.alphabetComplete = false ∧
    scenario3.alphabetWakeTime = 30 ∧
    selectNext 30 (cycleResetCheck scenarioConfig scenario3) = some TaskId.alphabet ∧
    scenario4.remainingAlphabetTime = 0 ∧
    scenario4.alphabetComplete = true ∧
    scenario4.remainingLedTime = 50 ∧
    scenario4.remainingCounterTime = 80 ∧
    selectNext 40 (cycleResetCheck scenarioConfig scenario4) = some TaskId.led := by
  decide
